import Mathlib

/-!
Shallow embedding of the radial-pattern generators of the
IllusoryMotionStimuli repository (`rotating_snake.py`, `fraser_wilcox1.py`,
`fraser_wilcox2.py`, `fraser_wilcox3.py`).

Real arithmetic of the source is modelled over `ℚ`.  The matplotlib canvas,
figure setup and file saving are plumbing outside the pattern algorithm; the
generators here return the ordered list of drawable patches (wedges and the
optional center circle) that the source hands to the canvas, or the Python
exception that aborts the call (`Except`).
-/

/-- An RGB triple, each channel rational. -/
abbrev Color := ℚ × ℚ × ℚ

/-- Python exceptions that the source can raise while computing the pattern. -/
inductive PyError where
  | valueError
  | keyError
  | zeroDivisionError
  | indexError
deriving DecidableEq

/-- One annulus wedge: `patches.Wedge((0,0), outer, theta1, theta2, width=outer-inner, color)`. -/
structure Wedge where
  theta1 : ℚ
  theta2 : ℚ
  inner_radius : ℚ
  outer_radius : ℚ
  color : Color
deriving DecidableEq

/-- A drawable patch: the center filler circle or a ring wedge. -/
inductive Patch where
  | circle (radius : ℚ) (color : Color)
  | wedge (w : Wedge)
deriving DecidableEq

/-- `np.clip(x, lo, hi)`. -/
def clip (x lo hi : ℚ) : ℚ := min (max x lo) hi

/-! ## rotating_snake.py -/

/-- `custom_colors["blue"]` of `rotating_snake.py`. -/
def custom_blue : Color := (15.3 / 255, 16.575 / 255, 1)

/-- `custom_colors["yellow"]` of `rotating_snake.py`. -/
def custom_yellow : Color := (183.6 / 255, 188.7 / 255, 0)

/-- `custom_colors["red"]` of `rotating_snake.py`. -/
def custom_red : Color := (216.75 / 255, 0, 0)

/-- `custom_colors["green"]` of `rotating_snake.py`. -/
def custom_green : Color := (0, 1, 0)

/-- `default_luminance_levels = [1, 2/3, 0, 1/3]`. -/
def default_luminance_levels : List ℚ := [1, 2/3, 0, 1/3]

/-- `color_mappings["grayscale"]` as a partial lookup (Python dict access). -/
def grayscale_mapping (level : ℚ) : Option Color :=
  if level = 1 then some (1, 1, 1)
  else if level = 2/3 then some (0.8, 0.8, 0.8)
  else if level = 0 then some (0, 0, 0)
  else if level = 1/3 then some (0.33, 0.33, 0.33)
  else none

/-- `color_mappings["blue_yellow"]` as a partial lookup. -/
def blue_yellow_mapping (level : ℚ) : Option Color :=
  if level = 1 then some (1, 1, 1)
  else if level = 2/3 then some custom_yellow
  else if level = 0 then some (0, 0, 0)
  else if level = 1/3 then some custom_blue
  else none

/-- `color_mappings["red_green"]` as a partial lookup. -/
def red_green_mapping (level : ℚ) : Option Color :=
  if level = 1 then some (1, 1, 1)
  else if level = 2/3 then some custom_green
  else if level = 0 then some (0, 0, 0)
  else if level = 1/3 then some custom_red
  else none

/-- `color_mappings[color_mode][level]`: the outer dict selects the mode. -/
def color_mappings (color_mode : String) (level : ℚ) : Option Color :=
  if color_mode = "grayscale" then grayscale_mapping level
  else if color_mode = "blue_yellow" then blue_yellow_mapping level
  else if color_mode = "red_green" then red_green_mapping level
  else none

/-- `color_mode in color_mappings` (the membership test of line 69). -/
def validColorMode (color_mode : String) : Bool :=
  color_mode = "grayscale" || color_mode = "blue_yellow" || color_mode = "red_green"

/-- The list comprehension
`[color_mappings[color_mode][level] for level in luminance_levels]`;
a level that is not a dict key raises `KeyError`. -/
def buildColorSequence (color_mode : String) : List ℚ → Except PyError (List Color)
  | [] => Except.ok []
  | level :: rest =>
    match color_mappings color_mode level with
    | none => Except.error PyError.keyError
    | some c => (buildColorSequence color_mode rest).map (fun cs => c :: cs)

/-- Entry `j` of `np.linspace(min_inner_radius, 1.0, num_rings + 1)`. -/
def ringRadius (min_inner_radius : ℚ) (num_rings j : ℕ) : ℚ :=
  min_inner_radius + j * ((1 - min_inner_radius) / num_rings)

/-- The wedges of ring `ring_idx` of `generate_rotating_snake`
(lines 97-122 of `rotating_snake.py`). -/
def snakeRingWedges (element_order : List Color) (num_rings num_repeats shift_per_ring : ℕ)
    (min_inner_radius : ℚ) (ring_idx : ℕ) : List Patch :=
  let num_segments := element_order.length * num_repeats
  let angle_step : ℚ := 360 / num_segments
  let ring_shift := ((num_rings - ring_idx - 1) * shift_per_ring) % element_order.length
  let shifted_sequence := element_order.drop ring_shift ++ element_order.take ring_shift
  (List.range num_segments).map fun (i : ℕ) =>
    Patch.wedge
      { theta1 := (i : ℚ) * angle_step
        theta2 := ((i : ℚ) + 1) * angle_step
        inner_radius := ringRadius min_inner_radius num_rings ring_idx
        outer_radius := ringRadius min_inner_radius num_rings (ring_idx + 1)
        color := shifted_sequence.getD (i % shifted_sequence.length) (0, 0, 0) }

/-- The center filler circle, drawn when `min_inner_radius > 0`
(lines 92-94 of `rotating_snake.py`). -/
def centerCircle (min_inner_radius : ℚ) : List Patch :=
  if 0 < min_inner_radius then [Patch.circle min_inner_radius (1, 1, 1)] else []

/-- `generate_rotating_snake` of `rotating_snake.py`: the ordered patch list it
draws, or the Python exception aborting the call.  Canvas setup and saving are
plumbing and not modelled.  An empty `luminance_values` list is falsy in
Python, so it selects the defaults, while `element_order` is compared with
`None` (`Option`).  A zero segment count raises `ZeroDivisionError` at
`angle_step = 360 / num_segments` in the first ring iteration. -/
def generate_rotating_snake (num_rings num_repeats shift_per_ring : ℕ)
    (color_mode : String) (element_order : Option (List Color))
    (luminance_values : Option (List ℚ)) (rotation_direction : String)
    (min_inner_radius : ℚ) : Except PyError (List Patch) :=
  let luminance_levels :=
    match luminance_values with
    | some l => if l = [] then default_luminance_levels else l
    | none => default_luminance_levels
  if validColorMode color_mode then
    (buildColorSequence color_mode luminance_levels).bind fun color_sequence =>
      let eo := element_order.getD color_sequence
      let eo := if rotation_direction = "clockwise" then eo.reverse else eo
      if num_rings ≠ 0 ∧ eo.length * num_repeats = 0 then
        Except.error PyError.zeroDivisionError
      else
        Except.ok (centerCircle min_inner_radius ++
          (List.range num_rings).flatMap
            (snakeRingWedges eo num_rings num_repeats shift_per_ring min_inner_radius))
  else Except.error PyError.valueError

/-! ## fraser_wilcox1.py -/

/-- The wedge drawn by `generate_fraser_wilcox1` for indices
`(ring, repeat, i)` (lines 44-73 of `fraser_wilcox1.py`).  `luminance_norm`
is the unmodified copy of `luminance_levels` the source makes on line 24. -/
def fw1Wedge (bg_luminance_norm : ℚ) (luminance_norm : List ℚ)
    (num_rings num_repeats num_steps shift_per_ring : ℕ) (clockwise : Bool)
    (ring rep i : ℕ) : Wedge :=
  let total_segments := num_repeats * num_steps
  let angle_step : ℚ := 360 / total_segments
  let shift := (ring * shift_per_ring) % num_steps
  let t1 : ℚ := ((i + rep * num_steps : ℕ) : ℚ) * angle_step
  let t2 : ℚ := ((i + rep * num_steps + 1 : ℕ) : ℚ) * angle_step
  let color : Color :=
    if (ring + rep) % 2 = 0 then
      let grad : ℚ := ((i + shift : ℕ) : ℚ) / num_steps
      let lum := clip (luminance_norm.getD 0 0 +
        grad * (luminance_norm.getD 1 0 - luminance_norm.getD 0 0)) 0 1
      (lum, lum, lum)
    else (bg_luminance_norm, bg_luminance_norm, bg_luminance_norm)
  { theta1 := if clockwise then -t2 else t1
    theta2 := if clockwise then -t1 else t2
    inner_radius := (ring : ℚ) / num_rings
    outer_radius := ((ring : ℚ) + 1) / num_rings
    color := color }

/-- `generate_fraser_wilcox1` of `fraser_wilcox1.py`: the ordered wedge list,
or the Python exception aborting the call.  `max_lum_cd_m2 = 0` raises
`ZeroDivisionError` at the `bg_luminance / max_lum_cd_m2` normalization;
`num_repeats * num_steps = 0` raises it at `angle_step = 360 /
total_segments` in the first ring iteration; fewer than two luminance levels
raise `IndexError` at `luminance_norm[1]` in the first even-parity wedge. -/
def generate_fraser_wilcox1 (num_rings num_repeats num_steps : ℕ)
    (bg_luminance max_lum_cd_m2 : ℚ) (shift_per_ring : ℕ)
    (luminance_levels : List ℚ) (rotation_direction : String) :
    Except PyError (List Wedge) :=
  if max_lum_cd_m2 = 0 then Except.error PyError.zeroDivisionError
  else
    let bg_luminance_norm := clip (bg_luminance / max_lum_cd_m2) 0 1
    let cw := rotation_direction = "clockwise"
    if num_rings = 0 then Except.ok []
    else if num_repeats * num_steps = 0 then Except.error PyError.zeroDivisionError
    else if luminance_levels.length < 2 then Except.error PyError.indexError
    else
      Except.ok ((List.range num_rings).flatMap fun ring =>
        (List.range num_repeats).flatMap fun rep =>
          (List.range num_steps).map fun i =>
            fw1Wedge bg_luminance_norm luminance_levels num_rings num_repeats
              num_steps shift_per_ring cw ring rep i)

/-! ## fraser_wilcox2.py -/

/-- The wedge drawn by `generate_fraser_wilcox2` for indices
`(ring, repeat, i)` (lines 37-60 of `fraser_wilcox2.py`).  The per-ring
`shift` uses Python integer floor division `// 2`.  Neither parity branch is
a constant color and neither clamps. -/
def fw2Wedge (luminance_levels : List ℚ)
    (num_rings num_repeats num_steps shift_per_ring : ℕ) (clockwise : Bool)
    (ring rep i : ℕ) : Wedge :=
  let total_segments := num_repeats * num_steps
  let angle_step : ℚ := 360 / total_segments
  let shift := (ring * shift_per_ring * num_steps / 2) % num_steps
  let t1 : ℚ := ((i + rep * num_steps : ℕ) : ℚ) * angle_step
  let t2 : ℚ := ((i + rep * num_steps + 1 : ℕ) : ℚ) * angle_step
  let grad : ℚ := ((i + shift : ℕ) : ℚ) / num_steps
  let color_value : ℚ :=
    if (rep + ring) % 2 = 0 then
      luminance_levels.getD 2 0 + grad * (luminance_levels.getD 3 0 - luminance_levels.getD 2 0)
    else
      luminance_levels.getD 0 0 - grad * (luminance_levels.getD 0 0 - luminance_levels.getD 1 0)
  { theta1 := if clockwise then -t2 else t1
    theta2 := if clockwise then -t1 else t2
    inner_radius := (ring : ℚ) / num_rings
    outer_radius := ((ring : ℚ) + 1) / num_rings
    color := (color_value, color_value, color_value) }

/-- `generate_fraser_wilcox2` of `fraser_wilcox2.py`: the ordered wedge list,
or the Python exception aborting the call.  `max_lum_cd_m2 = 0` raises
`ZeroDivisionError` at the facecolor normalization; a zero segment count
raises it at `angle_step`; fewer than four luminance levels raise
`IndexError` at `luminance_levels[2]`/`[3]` in the first wedge. -/
def generate_fraser_wilcox2 (num_rings num_repeats num_steps : ℕ)
    (bg_luminance max_lum_cd_m2 : ℚ) (shift_per_ring : ℕ)
    (luminance_levels : List ℚ) (rotation_direction : String) :
    Except PyError (List Wedge) :=
  if max_lum_cd_m2 = 0 then Except.error PyError.zeroDivisionError
  else
    let cw := rotation_direction = "clockwise"
    if num_rings = 0 then Except.ok []
    else if num_repeats * num_steps = 0 then Except.error PyError.zeroDivisionError
    else if luminance_levels.length < 4 then Except.error PyError.indexError
    else
      Except.ok ((List.range num_rings).flatMap fun ring =>
        (List.range num_repeats).flatMap fun rep =>
          (List.range num_steps).map fun i =>
            fw2Wedge luminance_levels num_rings num_repeats num_steps
              shift_per_ring cw ring rep i)

/-! ## fraser_wilcox3.py -/

/-- The luminance sequence `generate_fraser_wilcox3` resolves on lines 26-36:
the default cd/m2 values normalized by `max_lum_cd_m2` when
`luminance_levels is None`, else the given list. -/
def fw3LuminanceSequence (luminance_levels : Option (List ℚ))
    (max_lum_cd_m2 : ℚ) : List ℚ :=
  match luminance_levels with
  | none => [0.001 / max_lum_cd_m2, 30 / max_lum_cd_m2,
             40 / max_lum_cd_m2, 70 / max_lum_cd_m2]
  | some l => l

/-- The wedge drawn by `generate_fraser_wilcox3` for indices
`(ring, repeat, i)` (lines 48-74 of `fraser_wilcox3.py`).  There is no
per-ring shift: the gradient index is `i / num_steps` alone.  Even-index
rings are filled with the normalized background color. -/
def fw3Wedge (bg_luminance_norm : ℚ) (luminance_sequence : List ℚ)
    (num_rings num_repeats num_steps : ℕ) (clockwise : Bool)
    (ring rep i : ℕ) : Wedge :=
  let total_segments := num_repeats * num_steps
  let angle_step : ℚ := 360 / total_segments
  let t1 : ℚ := ((i + rep * num_steps : ℕ) : ℚ) * angle_step
  let t2 : ℚ := ((i + rep * num_steps + 1 : ℕ) : ℚ) * angle_step
  let color : Color :=
    if ring % 2 = 0 then (bg_luminance_norm, bg_luminance_norm, bg_luminance_norm)
    else
      let grad : ℚ := (i : ℚ) / num_steps
      let color_value := luminance_sequence.getD 0 0 +
        grad * (luminance_sequence.getD 3 0 - luminance_sequence.getD 0 0)
      (color_value, color_value, color_value)
  { theta1 := if clockwise then -t2 else t1
    theta2 := if clockwise then -t1 else t2
    inner_radius := (ring : ℚ) / num_rings
    outer_radius := ((ring : ℚ) + 1) / num_rings
    color := color }

/-- `generate_fraser_wilcox3` of `fraser_wilcox3.py`: the ordered wedge list,
or the Python exception aborting the call.  The signature has no
`shift_per_ring` parameter.  `max_lum_cd_m2 = 0` raises `ZeroDivisionError`
in the luminance normalizations; a zero segment count raises it at
`angle_step`; a sequence shorter than four raises `IndexError` at
`luminance_sequence[3]` in the first odd-ring wedge (reachable only when
`num_rings ≥ 2`). -/
def generate_fraser_wilcox3 (num_rings num_repeats num_steps : ℕ)
    (bg_luminance max_lum_cd_m2 : ℚ) (luminance_levels : Option (List ℚ))
    (rotation_direction : String) : Except PyError (List Wedge) :=
  if max_lum_cd_m2 = 0 then Except.error PyError.zeroDivisionError
  else
    let bg_luminance_norm := clip (bg_luminance / max_lum_cd_m2) 0 1
    let luminance_sequence := fw3LuminanceSequence luminance_levels max_lum_cd_m2
    let cw := rotation_direction = "clockwise"
    if num_rings = 0 then Except.ok []
    else if num_repeats * num_steps = 0 then Except.error PyError.zeroDivisionError
    else if 2 ≤ num_rings ∧ luminance_sequence.length < 4 then
      Except.error PyError.indexError
    else
      Except.ok ((List.range num_rings).flatMap fun ring =>
        (List.range num_repeats).flatMap fun rep =>
          (List.range num_steps).map fun i =>
            fw3Wedge bg_luminance_norm luminance_sequence num_rings num_repeats
              num_steps cw ring rep i)

/-! ## Helper definitions for statements -/

instance {e a : Type} [DecidableEq e] [DecidableEq a] : DecidableEq (Except e a)
  | .ok x, .ok y => if h : x = y then .isTrue (by simp [h]) else .isFalse (by simp [h])
  | .ok _, .error _ => .isFalse (by simp)
  | .error _, .ok _ => .isFalse (by simp)
  | .error x, .error y => if h : x = y then .isTrue (by simp [h]) else .isFalse (by simp [h])

/-- The angle pair a patch occupies (the filler circle has none). -/
def patchAngles : Patch → ℚ × ℚ
  | .circle _ _ => (0, 0)
  | .wedge w => (w.theta1, w.theta2)

/-! ## Helper lemmas -/

theorem clip01_mem (x : ℚ) : 0 ≤ clip x 0 1 ∧ clip x 0 1 ≤ 1 :=
  ⟨le_min (le_max_right x 0) zero_le_one, min_le_right _ _⟩

theorem buildColorSequence_default :
    buildColorSequence "grayscale" default_luminance_levels =
      Except.ok [(1, 1, 1), (0.8, 0.8, 0.8), (0, 0, 0), (0.33, 0.33, 0.33)] := by
  norm_num [buildColorSequence, default_luminance_levels, color_mappings,
    grayscale_mapping, Except.map]

theorem range_mul_flatMap {α : Type} (g : ℕ → α) (a b : ℕ) :
    (List.range (a * b)).map g =
      (List.range a).flatMap fun r => (List.range b).map fun i => g (r * b + i) := by
  induction a with
  | zero => simp
  | succ n ih =>
    rw [Nat.succ_mul, List.range_add, List.map_append, ih, List.range_succ,
      List.flatMap_append]
    simp [List.map_map, Function.comp_def]

theorem snakeRingWedges_eq_rotate (elems : List Color)
    (num_rings num_repeats shift_per_ring : ℕ) (m : ℚ) (r : ℕ) (h1 : elems ≠ []) :
    snakeRingWedges elems num_rings num_repeats shift_per_ring m r =
      (List.range (elems.length * num_repeats)).map fun (i : ℕ) =>
        Patch.wedge
          { theta1 := (i : ℚ) * (360 / ((elems.length * num_repeats : ℕ) : ℚ))
            theta2 := ((i : ℚ) + 1) * (360 / ((elems.length * num_repeats : ℕ) : ℚ))
            inner_radius := ringRadius m num_rings r
            outer_radius := ringRadius m num_rings (r + 1)
            color := (elems.rotate ((num_rings - 1 - r) * shift_per_ring)).getD
              (i % elems.length) (0, 0, 0) } := by
  have hlen : 0 < elems.length := List.length_pos.mpr h1
  have hmod : ((num_rings - r - 1) * shift_per_ring) % elems.length ≤ elems.length :=
    le_of_lt (Nat.mod_lt _ hlen)
  have hrot : elems.drop (((num_rings - r - 1) * shift_per_ring) % elems.length) ++
      elems.take (((num_rings - r - 1) * shift_per_ring) % elems.length) =
      elems.rotate ((num_rings - 1 - r) * shift_per_ring) := by
    rw [show num_rings - 1 - r = num_rings - r - 1 from by omega, ← List.rotate_mod,
      List.rotate_eq_drop_append_take hmod]
  simp only [snakeRingWedges]
  apply List.map_congr_left
  intro i hi
  rw [hrot, List.length_rotate]

theorem color_mappings_none_of_bad (mode : String) (x : ℚ)
    (hmode : validColorMode mode = true)
    (hx : x ≠ 1 ∧ x ≠ 2/3 ∧ x ≠ 0 ∧ x ≠ 1/3) :
    color_mappings mode x = none := by
  obtain ⟨h1, h2, h3, h4⟩ := hx
  simp only [validColorMode, Bool.or_eq_true, decide_eq_true_eq] at hmode
  rcases hmode with (h | h) | h <;>
    norm_num [color_mappings, h, grayscale_mapping, blue_yellow_mapping,
      red_green_mapping, h1, h2, h3, h4]

theorem buildColorSequence_keyError (mode : String)
    (hmode : validColorMode mode = true) :
    ∀ l : List ℚ, (∃ x ∈ l, x ≠ 1 ∧ x ≠ 2/3 ∧ x ≠ 0 ∧ x ≠ 1/3) →
      buildColorSequence mode l = Except.error PyError.keyError := by
  intro l
  induction l with
  | nil => rintro ⟨x, hx, -⟩; cases hx
  | cons a l ih =>
    rintro ⟨x, hx, hbad⟩
    rcases List.mem_cons.mp hx with rfl | hxl
    · simp [buildColorSequence, color_mappings_none_of_bad mode x hmode hbad]
    · cases hma : color_mappings mode a with
      | none => simp [buildColorSequence, hma]
      | some c =>
        simp [buildColorSequence, hma, ih ⟨x, hxl, hbad⟩, Except.map]

theorem fw1_tiny_eval :
    generate_fraser_wilcox1 1 1 1 30 100 0 [0, 3/10] "counterclockwise" =
      Except.ok [⟨0, 360, 0, 1, (0, 0, 0)⟩] := by
  norm_num [generate_fraser_wilcox1, fw1Wedge, clip,
    (by decide : ("counterclockwise" = "clockwise") = False),
    show (1 : ℕ) = 0 + 1 from rfl, List.range_succ]

theorem fw1_two_eval :
    generate_fraser_wilcox1 1 1 2 30 100 0 [0, 3/10] "counter_clockwise" =
      Except.ok [⟨0, 180, 0, 1, (0, 0, 0)⟩, ⟨180, 360, 0, 1, (3/20, 3/20, 3/20)⟩] := by
  norm_num [generate_fraser_wilcox1, fw1Wedge, clip,
    (by decide : ("counter_clockwise" = "clockwise") = False),
    show (2 : ℕ) = 1 + 1 from rfl, show (1 : ℕ) = 0 + 1 from rfl, List.range_succ]

theorem fw3_tiny_eval :
    generate_fraser_wilcox3 2 1 1 30 100 none "counterclockwise" =
      Except.ok [⟨0, 360, 0, 1/2, (3/10, 3/10, 3/10)⟩,
        ⟨0, 360, 1/2, 1, (1/100000, 1/100000, 1/100000)⟩] := by
  norm_num [generate_fraser_wilcox3, fw3Wedge, fw3LuminanceSequence, clip,
    (by decide : ("counterclockwise" = "clockwise") = False),
    show (2 : ℕ) = 1 + 1 from rfl, show (1 : ℕ) = 0 + 1 from rfl, List.range_succ]

/-! ## Claim theorems -/

/-- Claim C1: in the stepwise-constant style (`generate_rotating_snake`), every
ring is divided into `len(element_sequence) * repeats` equal angular slices,
slice `i` gets the color `shifted_sequence[i mod len(shifted_sequence)]` where
`shifted_sequence` is the element sequence rotated left by
`ring_shift mod len(element_sequence)`, and the shift follows the shrinking
convention `ring_shift = (num_rings - 1 - ring_index) * shift_per_ring`. -/
theorem C1_snake_stepwise_rotation (num_rings num_repeats shift_per_ring : ℕ) (m : ℚ)
    (elems : List Color) (h1 : elems ≠ []) (h2 : num_repeats ≠ 0) :
    generate_rotating_snake num_rings num_repeats shift_per_ring "grayscale"
        (some elems) none "counter_clockwise" m =
      Except.ok (centerCircle m ++
        (List.range num_rings).flatMap fun r =>
          (List.range (elems.length * num_repeats)).map fun (i : ℕ) =>
            Patch.wedge
              { theta1 := (i : ℚ) * (360 / ((elems.length * num_repeats : ℕ) : ℚ))
                theta2 := ((i : ℚ) + 1) * (360 / ((elems.length * num_repeats : ℕ) : ℚ))
                inner_radius := ringRadius m num_rings r
                outer_radius := ringRadius m num_rings (r + 1)
                color := (elems.rotate ((num_rings - 1 - r) * shift_per_ring)).getD
                  (i % elems.length) (0, 0, 0) }) := by
  have hne : elems.length * num_repeats ≠ 0 :=
    Nat.mul_ne_zero (fun h => h1 (List.length_eq_zero.mp h)) h2
  norm_num [generate_rotating_snake, validColorMode, buildColorSequence_default,
    Except.bind, (by decide : ("counter_clockwise" = "clockwise") = False), hne]
  refine List.flatMap_congr fun r _ => ?_
  simpa using snakeRingWedges_eq_rotate elems num_rings num_repeats shift_per_ring m r h1

/-- Witness for C1: a two-color sequence over two rings with shift 1. -/
theorem C1_snake_stepwise_rotation_witness :
    ([((1 : ℚ), (1 : ℚ), (1 : ℚ)), ((0 : ℚ), (0 : ℚ), (0 : ℚ))] : List Color) ≠ [] ∧
    (1 : ℕ) ≠ 0 ∧
    generate_rotating_snake 2 1 1 "grayscale"
        (some [((1 : ℚ), (1 : ℚ), (1 : ℚ)), ((0 : ℚ), (0 : ℚ), (0 : ℚ))]) none
        "counter_clockwise" 0 =
      Except.ok (centerCircle 0 ++
        (List.range 2).flatMap fun r =>
          (List.range (([((1 : ℚ), (1 : ℚ), (1 : ℚ)),
              ((0 : ℚ), (0 : ℚ), (0 : ℚ))] : List Color).length * 1)).map fun (i : ℕ) =>
            Patch.wedge
              { theta1 := (i : ℚ) * (360 / ((([((1 : ℚ), (1 : ℚ), (1 : ℚ)),
                  ((0 : ℚ), (0 : ℚ), (0 : ℚ))] : List Color).length * 1 : ℕ) : ℚ))
                theta2 := ((i : ℚ) + 1) * (360 / ((([((1 : ℚ), (1 : ℚ), (1 : ℚ)),
                  ((0 : ℚ), (0 : ℚ), (0 : ℚ))] : List Color).length * 1 : ℕ) : ℚ))
                inner_radius := ringRadius 0 2 r
                outer_radius := ringRadius 0 2 (r + 1)
                color := (([((1 : ℚ), (1 : ℚ), (1 : ℚ)),
                    ((0 : ℚ), (0 : ℚ), (0 : ℚ))] : List Color).rotate ((2 - 1 - r) * 1)).getD
                  (i % ([((1 : ℚ), (1 : ℚ), (1 : ℚ)),
                    ((0 : ℚ), (0 : ℚ), (0 : ℚ))] : List Color).length) (0, 0, 0) }) :=
  ⟨by simp, by decide,
    C1_snake_stepwise_rotation 2 1 1 0 [(1, 1, 1), (0, 0, 0)] (by simp) (by decide)⟩

/-- Claim C2 (counterexample): the claim states that every odd
`(ring + repeat)`-parity run of the gradient style renders a constant
background color, but `generate_fraser_wilcox2` renders a gradient from
`luminance_levels[0]` to `luminance_levels[1]` there: with the default
levels and background 30/100, its odd-parity run contains colors 1 and 5/6,
neither equal to the background 30/100 and not constant. -/
theorem C2_fw2_odd_parity_counterexample :
    generate_fraser_wilcox2 1 2 2 30 100 0 [1, 2/3, 0, 1/3] "counterclockwise" =
      Except.ok
        [⟨0, 90, 0, 1, (0, 0, 0)⟩,
         ⟨90, 180, 0, 1, (1/6, 1/6, 1/6)⟩,
         ⟨180, 270, 0, 1, (1, 1, 1)⟩,
         ⟨270, 360, 0, 1, (5/6, 5/6, 5/6)⟩] ∧
      ((1 : ℚ) ≠ 30 / 100) ∧ ((1 : ℚ) ≠ 5/6) := by
  refine ⟨?_, by norm_num, by norm_num⟩
  norm_num [generate_fraser_wilcox2, fw2Wedge,
    (by decide : ("counterclockwise" = "clockwise") = False),
    show (2 : ℕ) = 1 + 1 from rfl, List.range_succ]

/-- Claim C2 (amended): in `generate_fraser_wilcox1`, the wedge for
indices `(ring, repeat, i)` has, for even `(ring + repeat)` parity, color
`L_start + (i + shift) / num_steps * (L_end - L_start)` clamped to `[0, 1]`
with `shift = (ring * shift_per_ring) mod num_steps`, and for odd parity the
constant normalized background color.  `generate_fraser_wilcox2` does not
satisfy the odd-parity clause (see the counterexample). -/
theorem C2_fw1_gradient_parity (nr reps steps spr : ℕ) (bg maxl : ℚ)
    (levels : List ℚ) (dir : String) (ws : List Wedge)
    (h : generate_fraser_wilcox1 nr reps steps bg maxl spr levels dir = Except.ok ws)
    (ring rep i : ℕ) (hr : ring < nr) (hrep : rep < reps) (hi : i < steps) :
    ∃ w ∈ ws,
      w = fw1Wedge (clip (bg / maxl) 0 1) levels nr reps steps spr
            (decide (dir = "clockwise")) ring rep i ∧
      ((ring + rep) % 2 = 0 →
        w.color =
          (let s : ℕ := (ring * spr) % steps
           let v := clip (levels.getD 0 0 +
             ((i : ℚ) + (s : ℚ)) / (steps : ℚ) * (levels.getD 1 0 - levels.getD 0 0)) 0 1
           (v, v, v))) ∧
      ((ring + rep) % 2 ≠ 0 →
        w.color = (clip (bg / maxl) 0 1, clip (bg / maxl) 0 1, clip (bg / maxl) 0 1)) := by
  simp only [generate_fraser_wilcox1] at h
  split_ifs at h
  · omega
  · injection h with h
    subst h
    refine ⟨fw1Wedge (clip (bg / maxl) 0 1) levels nr reps steps spr
      (decide (dir = "clockwise")) ring rep i, ?_, rfl, ?_, ?_⟩
    · simp only [List.mem_flatMap, List.mem_map, List.mem_range]
      exact ⟨ring, hr, rep, hrep, i, hi, rfl⟩
    · intro hp
      simp only [fw1Wedge, hp, if_pos]
      push_cast
      ring_nf
    · intro hp
      simp only [fw1Wedge, if_neg hp]

/-- Witness for C2: the single-wedge configuration of `fw1_tiny_eval`. -/
theorem C2_fw1_gradient_parity_witness :
    generate_fraser_wilcox1 1 1 1 30 100 0 [0, 3/10] "counterclockwise" =
      Except.ok [⟨0, 360, 0, 1, (0, 0, 0)⟩] ∧
    (0 : ℕ) < 1 ∧
    ∃ w ∈ [(⟨0, 360, 0, 1, ((0 : ℚ), (0 : ℚ), (0 : ℚ))⟩ : Wedge)],
      w = fw1Wedge (clip (30 / 100) 0 1) [0, 3/10] 1 1 1 0
            (decide (("counterclockwise" : String) = "clockwise")) 0 0 0 ∧
      ((0 + 0) % 2 = 0 →
        w.color =
          (let s : ℕ := (0 * 0) % 1
           let v := clip ([(0 : ℚ), 3/10].getD 0 0 +
             (((0 : ℕ) : ℚ) + (s : ℚ)) / ((1 : ℕ) : ℚ) *
               ([(0 : ℚ), 3/10].getD 1 0 - [(0 : ℚ), 3/10].getD 0 0)) 0 1
           (v, v, v))) ∧
      ((0 + 0) % 2 ≠ 0 →
        w.color = (clip (30 / 100) 0 1, clip (30 / 100) 0 1, clip (30 / 100) 0 1)) :=
  ⟨fw1_tiny_eval, by decide,
    C2_fw1_gradient_parity 1 1 1 0 30 100 [0, 3/10] "counterclockwise" _ fw1_tiny_eval
      0 0 0 (by decide) (by decide) (by decide)⟩

/-- Claim C3 (counterexample): the claim asserts that segment `k` spans
`[k * angle_step, (k + 1) * angle_step)` even when
`rotation_direction = clockwise`, but the Fraser-Wilcox variants mirror the
angle pair to `(-theta2, -theta1)`: with one segment, the emitted wedge spans
`[-360, 0]`, whose start is not `0 * angle_step = 0`. -/
theorem C3_clockwise_span_counterexample :
    generate_fraser_wilcox1 1 1 1 30 100 1 [0, 3/10] "clockwise" =
      Except.ok [⟨-360, 0, 0, 1, (0, 0, 0)⟩] ∧ ((-360 : ℚ) ≠ 0) := by
  constructor
  · norm_num [generate_fraser_wilcox1, fw1Wedge, clip,
      show (1 : ℕ) = 0 + 1 from rfl, List.range_succ]
  · norm_num

/-- Claim C3 (amended): per ring, `angle_step = 360 / total_segments` and
`angle_step * total_segments = 360`; with counter-clockwise direction
segment `k` spans `[k * angle_step, (k + 1) * angle_step)` so the ring tiles
`[0, 360)`, while with clockwise direction the Fraser-Wilcox variant emits
the mirrored spans `[-(k + 1) * angle_step, -k * angle_step)` (tiling
`[-360, 0)`); the rotating-snake rings always use the unmirrored spans. -/
theorem C3_angle_tiling :
    (∀ (nr reps steps : ℕ) (bg maxl : ℚ) (spr : ℕ) (levels : List ℚ)
       (dir : String) (ws : List Wedge),
      generate_fraser_wilcox1 nr reps steps bg maxl spr levels dir = Except.ok ws →
      nr ≠ 0 →
        ((ws.map fun w => (w.theta1, w.theta2)) =
          ((List.range nr).flatMap fun _ =>
            (List.range (reps * steps)).map fun (k : ℕ) =>
              if dir = "clockwise" then
                (-(((k : ℚ) + 1) * (360 / ((reps * steps : ℕ) : ℚ))),
                 -((k : ℚ) * (360 / ((reps * steps : ℕ) : ℚ))))
              else
                ((k : ℚ) * (360 / ((reps * steps : ℕ) : ℚ)),
                 ((k : ℚ) + 1) * (360 / ((reps * steps : ℕ) : ℚ)))) ∧
          (360 / ((reps * steps : ℕ) : ℚ)) * ((reps * steps : ℕ) : ℚ) = 360))
  ∧ (∀ (elems : List Color) (nr reps spr : ℕ) (m : ℚ) (r : ℕ),
      elems ≠ [] → reps ≠ 0 →
        ((snakeRingWedges elems nr reps spr m r).map patchAngles =
          (List.range (elems.length * reps)).map fun (k : ℕ) =>
            ((k : ℚ) * (360 / ((elems.length * reps : ℕ) : ℚ)),
             ((k : ℚ) + 1) * (360 / ((elems.length * reps : ℕ) : ℚ)))) ∧
        (360 / ((elems.length * reps : ℕ) : ℚ)) * ((elems.length * reps : ℕ) : ℚ) = 360) := by
  constructor
  · intro nr reps steps bg maxl spr levels dir ws h hnr
    simp only [generate_fraser_wilcox1] at h
    split_ifs at h
    injection h with h
    subst h
    have htot : ¬ reps * steps = 0 := by assumption
    constructor
    · simp only [List.map_flatMap, List.map_map]
      refine List.flatMap_congr fun ring _ => ?_
      rw [range_mul_flatMap
        (fun k => if dir = "clockwise" then
            (-(((k : ℚ) + 1) * (360 / ((reps * steps : ℕ) : ℚ))),
             -((k : ℚ) * (360 / ((reps * steps : ℕ) : ℚ))))
          else
            ((k : ℚ) * (360 / ((reps * steps : ℕ) : ℚ)),
             ((k : ℚ) + 1) * (360 / ((reps * steps : ℕ) : ℚ)))) reps steps]
      refine List.flatMap_congr fun rep _ => ?_
      refine List.map_congr_left fun i _ => ?_
      by_cases hd : dir = "clockwise" <;>
        simp [fw1Wedge, hd, Prod.mk.injEq] <;>
        constructor <;> (push_cast; ring)
    · exact div_mul_cancel₀ 360 (Nat.cast_ne_zero.mpr htot)
  · intro elems nr reps spr m r h1 h2
    have hne : elems.length * reps ≠ 0 :=
      Nat.mul_ne_zero (fun hh => h1 (List.length_eq_zero.mp hh)) h2
    constructor
    · simp only [snakeRingWedges, patchAngles, List.map_map]
      rfl
    · exact div_mul_cancel₀ 360 (Nat.cast_ne_zero.mpr hne)

/-- Witness for C3: a counter-clockwise Fraser-Wilcox-1 ring of two steps and
a one-element snake ring. -/
theorem C3_angle_tiling_witness :
    generate_fraser_wilcox1 1 1 2 30 100 0 [0, 3/10] "counter_clockwise" =
      Except.ok [⟨0, 180, 0, 1, (0, 0, 0)⟩, ⟨180, 360, 0, 1, (3/20, 3/20, 3/20)⟩] ∧
    (1 : ℕ) ≠ 0 ∧
    (([(⟨0, 180, 0, 1, ((0 : ℚ), (0 : ℚ), (0 : ℚ))⟩ : Wedge),
        ⟨180, 360, 0, 1, (3/20, 3/20, 3/20)⟩].map fun w => (w.theta1, w.theta2)) =
      ((List.range 1).flatMap fun _ =>
        (List.range (1 * 2)).map fun (k : ℕ) =>
          if ("counter_clockwise" : String) = "clockwise" then
            (-(((k : ℚ) + 1) * (360 / ((1 * 2 : ℕ) : ℚ))),
             -((k : ℚ) * (360 / ((1 * 2 : ℕ) : ℚ))))
          else
            ((k : ℚ) * (360 / ((1 * 2 : ℕ) : ℚ)),
             ((k : ℚ) + 1) * (360 / ((1 * 2 : ℕ) : ℚ)))) ∧
      (360 / ((1 * 2 : ℕ) : ℚ)) * ((1 * 2 : ℕ) : ℚ) = 360) ∧
    ([((1 : ℚ), (1 : ℚ), (1 : ℚ))] : List Color) ≠ [] ∧
    (((snakeRingWedges [((1 : ℚ), (1 : ℚ), (1 : ℚ))] 1 1 0 0 0).map patchAngles =
        ((List.range (([((1 : ℚ), (1 : ℚ), (1 : ℚ))] : List Color).length * 1)).map
          fun (k : ℕ) =>
            ((k : ℚ) * (360 / ((([((1 : ℚ), (1 : ℚ), (1 : ℚ))] : List Color).length * 1 : ℕ) : ℚ)),
             ((k : ℚ) + 1) * (360 / ((([((1 : ℚ), (1 : ℚ), (1 : ℚ))] : List Color).length * 1 : ℕ) : ℚ))))) ∧
      (360 / ((([((1 : ℚ), (1 : ℚ), (1 : ℚ))] : List Color).length * 1 : ℕ) : ℚ)) *
        ((([((1 : ℚ), (1 : ℚ), (1 : ℚ))] : List Color).length * 1 : ℕ) : ℚ) = 360) :=
  ⟨fw1_two_eval, by decide,
    C3_angle_tiling.1 1 1 2 30 100 0 [0, 3/10] "counter_clockwise" _ fw1_two_eval (by decide),
    by simp,
    C3_angle_tiling.2 [(1, 1, 1)] 1 1 0 0 0 (by simp) (by decide)⟩

/-- Claim C4 (counterexample): the claim asserts every emitted color channel
lies in `[0, 1]` for all configs, but `generate_fraser_wilcox2` never clamps:
with `luminance_levels = [0, 0, 2, 0]` its single wedge has channel value 2. -/
theorem C4_fw2_out_of_range_counterexample :
    generate_fraser_wilcox2 1 1 1 30 100 0 [0, 0, 2, 0] "counterclockwise" =
      Except.ok [⟨0, 360, 0, 1, (2, 2, 2)⟩] ∧ ¬((2 : ℚ) ≤ 1) := by
  constructor
  · norm_num [generate_fraser_wilcox2, fw2Wedge,
      (by decide : ("counterclockwise" = "clockwise") = False),
      show (1 : ℕ) = 0 + 1 from rfl, List.range_succ]
  · norm_num

/-- Claim C4 (amended): every color channel emitted by
`generate_fraser_wilcox1` lies in `[0, 1]` for all configurations (the
gradient branch is clamped and the background is clipped);
`generate_fraser_wilcox2` does not clamp and can emit channels outside
`[0, 1]` (see the counterexample). -/
theorem C4_fw1_channels_unit_interval (nr reps steps : ℕ) (bg maxl : ℚ) (spr : ℕ)
    (levels : List ℚ) (dir : String) (ws : List Wedge)
    (h : generate_fraser_wilcox1 nr reps steps bg maxl spr levels dir = Except.ok ws) :
    ∀ w ∈ ws, (0 ≤ w.color.1 ∧ w.color.1 ≤ 1) ∧ (0 ≤ w.color.2.1 ∧ w.color.2.1 ≤ 1) ∧
      (0 ≤ w.color.2.2 ∧ w.color.2.2 ≤ 1) := by
  intro w hw
  simp only [generate_fraser_wilcox1] at h
  split_ifs at h
  · injection h with h
    subst h
    exact absurd hw (by simp)
  · injection h with h
    subst h
    simp only [List.mem_flatMap, List.mem_map, List.mem_range] at hw
    obtain ⟨ring, -, ⟨rep, -, ⟨i, -, rfl⟩⟩⟩ := hw
    by_cases hp : (ring + rep) % 2 = 0
    · simp only [fw1Wedge, hp, if_true, if_pos]
      exact ⟨clip01_mem _, clip01_mem _, clip01_mem _⟩
    · simp only [fw1Wedge, hp, if_false, if_neg, not_false_iff]
      exact ⟨clip01_mem _, clip01_mem _, clip01_mem _⟩

/-- Witness for C4: the single-wedge configuration of `fw1_tiny_eval`. -/
theorem C4_fw1_channels_unit_interval_witness :
    generate_fraser_wilcox1 1 1 1 30 100 0 [0, 3/10] "counterclockwise" =
      Except.ok [⟨0, 360, 0, 1, (0, 0, 0)⟩] ∧
    ∀ w ∈ [(⟨0, 360, 0, 1, ((0 : ℚ), (0 : ℚ), (0 : ℚ))⟩ : Wedge)],
      (0 ≤ w.color.1 ∧ w.color.1 ≤ 1) ∧ (0 ≤ w.color.2.1 ∧ w.color.2.1 ≤ 1) ∧
      (0 ≤ w.color.2.2 ∧ w.color.2.2 ≤ 1) :=
  ⟨fw1_tiny_eval,
    C4_fw1_channels_unit_interval 1 1 1 30 100 0 [0, 3/10] "counterclockwise"
      _ fw1_tiny_eval⟩

/-- Claim C5: with clockwise direction, mapping every Fraser-Wilcox-1
segment's angle pair `(theta1, theta2)` to `(-theta2, -theta1)` reproduces the
counter-clockwise angle pairs (angle-mirroring sub-policy), and the rotating
snake generated clockwise equals the counter-clockwise output computed with
the element sequence reversed (sequence-reversal sub-policy). -/
theorem C5_rotation_direction_policies :
    (∀ (nr reps steps : ℕ) (bg maxl : ℚ) (spr : ℕ) (levels : List ℚ),
      Except.map (List.map fun w => (-w.theta2, -w.theta1))
          (generate_fraser_wilcox1 nr reps steps bg maxl spr levels "clockwise") =
        Except.map (List.map fun w => (w.theta1, w.theta2))
          (generate_fraser_wilcox1 nr reps steps bg maxl spr levels "counter_clockwise"))
  ∧ (∀ (nr reps spr : ℕ) (mode : String) (lum : Option (List ℚ)) (m : ℚ)
      (elems : List Color),
      generate_rotating_snake nr reps spr mode (some elems) lum "clockwise" m =
        generate_rotating_snake nr reps spr mode (some elems.reverse) lum
          "counter_clockwise" m) := by
  constructor
  · intro nr reps steps bg maxl spr levels
    simp only [generate_fraser_wilcox1]
    split_ifs
    all_goals try rfl
    simp only [Except.map, Except.ok.injEq, List.map_flatMap, List.map_map]
    refine List.flatMap_congr fun ring _ => ?_
    refine List.flatMap_congr fun rep _ => ?_
    refine List.map_congr_left fun i _ => ?_
    simp [fw1Wedge, Function.comp_def]
  · intro nr reps spr mode lum m elems
    simp [generate_rotating_snake,
      (by decide : ("clockwise" = "clockwise") = True),
      (by decide : ("counter_clockwise" = "clockwise") = False)]

/-- Claim C6 (counterexample): the claim asserts that every configuration with
`repeats = 0` (for any `num_rings`) fails eagerly with an invalid-configuration
error, but with `num_rings = 0` and `num_repeats = 0` the rotating snake
succeeds, emitting only the center circle and no error of any kind. -/
theorem C6_repeats_zero_counterexample :
    generate_rotating_snake 0 0 2 "grayscale" none none "counter_clockwise" (1/20000) =
      Except.ok [Patch.circle (1/20000) (1, 1, 1)] := by
  norm_num [generate_rotating_snake, validColorMode, buildColorSequence,
    default_luminance_levels, color_mappings, grayscale_mapping, Except.map,
    Except.bind, snakeRingWedges, centerCircle,
    (by decide : ("counter_clockwise" = "clockwise") = False)]

/-- Claim C6 (amended): with `repeats = 0` and at least one ring, generation
fails with a `ZeroDivisionError` raised at the `angle_step = 360 /
total_segments` computation inside the per-ring loop (after canvas setup, not
eagerly, and naming no field); with `num_rings = 0` no error is raised. -/
theorem C6_repeats_zero_division_error :
    (∀ (nr spr : ℕ) (eo : Option (List Color)) (dir : String) (m : ℚ), nr ≠ 0 →
      generate_rotating_snake nr 0 spr "grayscale" eo none dir m =
        Except.error PyError.zeroDivisionError)
  ∧ (∀ (nr steps : ℕ) (bg maxl : ℚ) (spr : ℕ) (levels : List ℚ) (dir : String),
      maxl ≠ 0 → nr ≠ 0 →
      generate_fraser_wilcox1 nr 0 steps bg maxl spr levels dir =
        Except.error PyError.zeroDivisionError) := by
  constructor
  · intro nr spr eo dir m hnr
    simp [generate_rotating_snake, validColorMode, buildColorSequence_default,
      Except.bind, hnr]
  · intro nr steps bg maxl spr levels dir hm hnr
    simp [generate_fraser_wilcox1, hm, hnr]

/-- Witness for C6: one ring with zero repeats in each generator. -/
theorem C6_repeats_zero_division_error_witness :
    (1 : ℕ) ≠ 0 ∧ (100 : ℚ) ≠ 0 ∧
    generate_rotating_snake 1 0 2 "grayscale" none none "counter_clockwise" 0 =
      Except.error PyError.zeroDivisionError ∧
    generate_fraser_wilcox1 1 0 5 30 100 1 [0, 3/10] "counter_clockwise" =
      Except.error PyError.zeroDivisionError :=
  ⟨by decide, by norm_num,
    C6_repeats_zero_division_error.1 1 2 none "counter_clockwise" 0 (by decide),
    C6_repeats_zero_division_error.2 1 5 30 100 1 [0, 3/10] "counter_clockwise"
      (by norm_num) (by decide)⟩

/-- Claim C7 (code evaluation): with two rings, the rotating snake emits the
center filler circle first and then the rings in ascending radius order (the
innermost band `[1/2, 3/4]` before the outermost `[3/4, 1]`), contradicting
the claimed outer-first assembly with the circle drawn after the rings. -/
theorem C7_draw_order_concrete :
    generate_rotating_snake 2 1 0 "grayscale" none none "counter_clockwise" (1/2) =
      Except.ok
        [Patch.circle (1/2) (1, 1, 1),
         Patch.wedge ⟨0, 90, 1/2, 3/4, (1, 1, 1)⟩,
         Patch.wedge ⟨90, 180, 1/2, 3/4, (0.8, 0.8, 0.8)⟩,
         Patch.wedge ⟨180, 270, 1/2, 3/4, (0, 0, 0)⟩,
         Patch.wedge ⟨270, 360, 1/2, 3/4, (0.33, 0.33, 0.33)⟩,
         Patch.wedge ⟨0, 90, 3/4, 1, (1, 1, 1)⟩,
         Patch.wedge ⟨90, 180, 3/4, 1, (0.8, 0.8, 0.8)⟩,
         Patch.wedge ⟨180, 270, 3/4, 1, (0, 0, 0)⟩,
         Patch.wedge ⟨270, 360, 3/4, 1, (0.33, 0.33, 0.33)⟩] := by
  norm_num [generate_rotating_snake, validColorMode, buildColorSequence,
    default_luminance_levels, color_mappings, grayscale_mapping, Except.map,
    Except.bind, snakeRingWedges, centerCircle, ringRadius,
    (by decide : ("counter_clockwise" = "clockwise") = False),
    show (4 : ℕ) = 3 + 1 from rfl, show (2 : ℕ) = 1 + 1 from rfl, List.range_succ]

/-- Claim C8: with `num_rings = 1`, `repeats = 1`, `shift_per_ring = 0`, the
default 4-element grayscale sequence `[white, light_gray, black, dark_gray]`
and `min_inner_radius = 0`, the generated pattern is exactly four 90-degree
segments in the listed order spanning radii `[0, 1]`. -/
theorem C8_single_ring_four_segments :
    generate_rotating_snake 1 1 0 "grayscale" none none "counter_clockwise" 0 =
      Except.ok
        [Patch.wedge ⟨0, 90, 0, 1, (1, 1, 1)⟩,
         Patch.wedge ⟨90, 180, 0, 1, (0.8, 0.8, 0.8)⟩,
         Patch.wedge ⟨180, 270, 0, 1, (0, 0, 0)⟩,
         Patch.wedge ⟨270, 360, 0, 1, (0.33, 0.33, 0.33)⟩] := by
  norm_num [generate_rotating_snake, validColorMode, buildColorSequence,
    default_luminance_levels, color_mappings, grayscale_mapping, Except.map,
    Except.bind, snakeRingWedges, centerCircle, ringRadius,
    (by decide : ("counter_clockwise" = "clockwise") = False),
    show (4 : ℕ) = 3 + 1 from rfl, List.range_succ]

/-- Claim C9: `generate_fraser_wilcox3` applies no per-ring phase shift: every
wedge of an odd-index ring has color `luminance_sequence[0] + (i / num_steps)
* (luminance_sequence[3] - luminance_sequence[0])`, a formula independent of
the ring index, and every even-index ring is filled with the normalized
background color. -/
theorem C9_fw3_no_phase_shift (nr reps steps : ℕ) (bg maxl : ℚ)
    (levels : Option (List ℚ)) (dir : String) (ws : List Wedge)
    (h : generate_fraser_wilcox3 nr reps steps bg maxl levels dir = Except.ok ws) :
    ∀ w ∈ ws, ∃ ring rep i, ring < nr ∧ rep < reps ∧ i < steps ∧
      w = fw3Wedge (clip (bg / maxl) 0 1) (fw3LuminanceSequence levels maxl) nr reps steps
            (decide (dir = "clockwise")) ring rep i ∧
      (ring % 2 = 1 →
        w.color =
          (let s := fw3LuminanceSequence levels maxl
           let v := s.getD 0 0 + (i : ℚ) / (steps : ℚ) * (s.getD 3 0 - s.getD 0 0)
           (v, v, v))) ∧
      (ring % 2 = 0 →
        w.color = (clip (bg / maxl) 0 1, clip (bg / maxl) 0 1, clip (bg / maxl) 0 1)) := by
  intro w hw
  simp only [generate_fraser_wilcox3] at h
  split_ifs at h
  · injection h with h
    subst h
    exact absurd hw (by simp)
  · injection h with h
    subst h
    simp only [List.mem_flatMap, List.mem_map, List.mem_range] at hw
    obtain ⟨ring, h1, ⟨rep, h2, ⟨i, h3, rfl⟩⟩⟩ := hw
    refine ⟨ring, rep, i, h1, h2, h3, rfl, ?_, ?_⟩
    · intro hp
      have hp0 : ¬ ring % 2 = 0 := by omega
      simp only [fw3Wedge, if_neg hp0]
    · intro hp
      simp only [fw3Wedge, if_pos hp]

/-- Witness for C9: two rings, one repeat, one step, default luminance. -/
theorem C9_fw3_no_phase_shift_witness :
    generate_fraser_wilcox3 2 1 1 30 100 none "counterclockwise" =
      Except.ok [⟨0, 360, 0, 1/2, (3/10, 3/10, 3/10)⟩,
        ⟨0, 360, 1/2, 1, (1/100000, 1/100000, 1/100000)⟩] ∧
    ∀ w ∈ [(⟨0, 360, 0, 1/2, ((3/10 : ℚ), (3/10 : ℚ), (3/10 : ℚ))⟩ : Wedge),
        ⟨0, 360, 1/2, 1, (1/100000, 1/100000, 1/100000)⟩],
      ∃ ring rep i, ring < 2 ∧ rep < 1 ∧ i < 1 ∧
        w = fw3Wedge (clip (30 / 100) 0 1) (fw3LuminanceSequence none 100) 2 1 1
              (decide (("counterclockwise" : String) = "clockwise")) ring rep i ∧
        (ring % 2 = 1 →
          w.color =
            (let s := fw3LuminanceSequence none 100
             let v := s.getD 0 0 + (i : ℚ) / ((1 : ℕ) : ℚ) * (s.getD 3 0 - s.getD 0 0)
             (v, v, v))) ∧
        (ring % 2 = 0 →
          w.color = (clip (30 / 100) 0 1, clip (30 / 100) 0 1, clip (30 / 100) 0 1)) :=
  ⟨fw3_tiny_eval,
    C9_fw3_no_phase_shift 2 1 1 30 100 none "counterclockwise" _ fw3_tiny_eval⟩

/-- Claim C10: calling `generate_rotating_snake` with `element_order = None`
and a non-empty `luminance_values` list containing an entry other than
`1, 2/3, 0, 1/3` raises a `KeyError` while building the color sequence (a raw
dict-lookup failure before any segment is produced), not a configuration
error naming the field. -/
theorem C10_key_error_on_bad_level (nr reps spr : ℕ) (m : ℚ) (dir mode : String)
    (ls : List ℚ) (hmode : validColorMode mode = true)
    (hx : ∃ x ∈ ls, x ≠ 1 ∧ x ≠ 2/3 ∧ x ≠ 0 ∧ x ≠ 1/3) :
    generate_rotating_snake nr reps spr mode none (some ls) dir m =
      Except.error PyError.keyError := by
  have hne : ls ≠ [] := by
    obtain ⟨x, hxl, -⟩ := hx
    exact List.ne_nil_of_mem hxl
  simp [generate_rotating_snake, hmode, hne,
    buildColorSequence_keyError mode hmode ls hx, Except.bind]

/-- Witness for C10: luminance value 1/2 is not a key of the color mapping. -/
theorem C10_key_error_on_bad_level_witness :
    validColorMode "grayscale" = true ∧
    (∃ x ∈ [(1/2 : ℚ)], x ≠ 1 ∧ x ≠ 2/3 ∧ x ≠ 0 ∧ x ≠ 1/3) ∧
    generate_rotating_snake 1 1 0 "grayscale" none (some [1/2]) "counter_clockwise" 0 =
      Except.error PyError.keyError :=
  ⟨rfl, ⟨1/2, by simp, by norm_num⟩,
    C10_key_error_on_bad_level 1 1 0 0 "counter_clockwise" "grayscale" [1/2] rfl
      ⟨1/2, by simp, by norm_num⟩⟩
